import Mathlib

/-
Verification development for the swgoh-portraits server (src/main.go).

The Go program is a single HTTP endpoint that validates query parameters,
loads PNG assets and a font, composites them onto a fixed 200x200 canvas
and streams the result.  The definitions below are a shallow embedding of
that program: pure Go helpers become Lean functions, the mutable RGBA
canvas becomes a value of type Img that is threaded through the draw
calls, file-system loads become lookups in an explicit environment Env
(which yields either the decoded value or the error message Go would
propagate), and machine integers become Int with Go division written
out explicitly (Int.tdiv truncates toward zero, exactly as Go "/" does).
-/

/- ===== strconv.Atoi ===== -/

/-- Numeric value of a decimal digit character. -/
def digitVal (ch : Char) : Nat := ch.toNat - 48

/-- Accumulator loop for a run of decimal digits; fails on any non-digit. -/
def decDigitsAux : List Char → Nat → Option Nat
  | [], acc => some acc
  | ch :: rest, acc =>
    if ch.isDigit then decDigitsAux rest (acc * 10 + digitVal ch) else none

/-- Model of strconv.Atoi on a 64-bit platform: an optional single leading
sign followed by at least one decimal digit, failing on the empty string,
on any other character and on values outside the int64 range (in all of
these cases Go returns a non-nil error, which is what the callers in
src/main.go test). -/
def atoi (s : String) : Option Int :=
  match s.data with
  | [] => none
  | ch :: rest =>
    if ch = '-' then
      match rest with
      | [] => none
      | _ :: _ =>
        match decDigitsAux rest 0 with
        | none => none
        | some n => if n ≤ 2 ^ 63 then some (-(n : Int)) else none
    else if ch = '+' then
      match rest with
      | [] => none
      | _ :: _ =>
        match decDigitsAux rest 0 with
        | none => none
        | some n => if n ≤ 2 ^ 63 - 1 then some ((n : Int)) else none
    else
      match decDigitsAux (ch :: rest) 0 with
      | none => none
      | some n => if n ≤ 2 ^ 63 - 1 then some ((n : Int)) else none

/- ===== image geometry (image.Point, image.Rectangle) ===== -/

/-- Go image.Point. -/
structure Point where
  x : Int
  y : Int
  deriving DecidableEq

/-- Go image.Point.Add. -/
def Point.add (p q : Point) : Point := ⟨p.x + q.x, p.y + q.y⟩

/-- Go image.Point.Sub. -/
def Point.sub (p q : Point) : Point := ⟨p.x - q.x, p.y - q.y⟩

/-- Go image.Point.Div: componentwise Go integer division, which truncates
toward zero (Int.tdiv has exactly that behavior). -/
def Point.divTrunc (p : Point) (k : Int) : Point := ⟨Int.tdiv p.x k, Int.tdiv p.y k⟩

/-- Go image.Rectangle, given by its Min and Max corners. -/
structure Rect where
  minP : Point
  maxP : Point
  deriving DecidableEq

/-- Go image.Rectangle.Add: translate a rectangle by a point. -/
def Rect.add (r : Rect) (p : Point) : Rect := ⟨r.minP.add p, r.maxP.add p⟩

/-- Go image.Rectangle.Size. -/
def Rect.size (r : Rect) : Point := r.maxP.sub r.minP

/-- Membership of a pixel coordinate in a rectangle (Go image.Point.In:
min-inclusive, max-exclusive on both axes). -/
def memRect (r : Rect) (p : Point) : Prop :=
  r.minP.x ≤ p.x ∧ p.x < r.maxP.x ∧ r.minP.y ≤ p.y ∧ p.y < r.maxP.y

instance (r : Rect) (p : Point) : Decidable (memRect r p) :=
  inferInstanceAs (Decidable (_ ∧ _ ∧ _ ∧ _))

/-- One rectangle contained in another, pixelwise. -/
def rectSubset (a b : Rect) : Prop := ∀ p, memRect a p → memRect b p

/- ===== colors, images and draw.Draw ===== -/

/-- A color as returned by color.Color.RGBA(): four 16-bit,
alpha-premultiplied channels. -/
structure Rgba where
  r : Nat
  g : Nat
  b : Nat
  a : Nat
  deriving DecidableEq

/-- Porter-Duff source-over blending on 16-bit premultiplied channels,
the operation draw.Over performs per pixel. -/
def overBlend (s d : Rgba) : Rgba :=
  ⟨d.r * (65535 - s.a) / 65535 + s.r,
   d.g * (65535 - s.a) / 65535 + s.g,
   d.b * (65535 - s.a) / 65535 + s.b,
   d.a * (65535 - s.a) / 65535 + s.a⟩

/-- The fully transparent color (image.Transparent / the zero value a
freshly allocated image.NewRGBA buffer holds). -/
def transparentRgba : Rgba := ⟨0, 0, 0, 0⟩

/-- A decoded image (image.Image) or an RGBA canvas (image.RGBA): bounds
plus a total pixel function.  Pixels outside the bounds are never read by
the draw operations below, matching Go where At outside Bounds returns
the zero color and draws are clipped. -/
structure Img where
  bounds : Rect
  px : Point → Rgba

/-- Model of draw.Draw(dst, r, src, sp, draw.Over).  Go clips the
destination rectangle r by dst.Bounds() and by the translated source
bounds, then for each remaining pixel p blends the source pixel
sp + (p - r.Min) over the destination pixel.  The bounds of dst are
unchanged: draw.Draw writes into the existing buffer. -/
def drawDraw (dst : Img) (r : Rect) (src : Img) (sp : Point) : Img :=
  { bounds := dst.bounds
    px := fun p =>
      if memRect r p ∧ memRect dst.bounds p ∧
          memRect src.bounds ((p.sub r.minP).add sp) then
        overBlend (src.px ((p.sub r.minP).add sp)) (dst.px p)
      else dst.px p }

/- ===== font faces and drawText ===== -/

/-- A rasterized font face (golang.org/x/image/font.Face) at one size, as
the program observes it: the rounded advance width that
font.MeasureString reports, the ceiled ascent from Metrics, the glyph
extent below the baseline, and the per-pixel effect of rendering a
string with a white uniform source (font.Drawer.DrawString), given as an
optional transform at each point relative to the drawing dot (none means
the pixel is untouched). -/
structure Face where
  measure : String → Int
  ascentCeil : Int
  descent : Int
  glyph : String → Point → Option (Rgba → Rgba)

/-- A face is glyph-local when rendering a string only touches pixels in
the box spanned by the measured width and the ascent/descent metrics
around the dot.  This geometric fact about the rasterizer is taken as an
explicit hypothesis where a claim needs it. -/
def glyphLocal (f : Face) : Prop :=
  ∀ s q, f.glyph s q ≠ none →
    0 ≤ q.x ∧ q.x < f.measure s ∧ -f.ascentCeil ≤ q.y ∧ q.y < f.descent

/-- The pixel box a glyph-local face may touch when drawing text with the
dot at (x, y). -/
def textBox (f : Face) (s : String) (x y : Int) : Rect :=
  ⟨⟨x, y - f.ascentCeil⟩, ⟨x + f.measure s, y + f.descent⟩⟩

/-- Model of drawText (src/main.go): a font.Drawer with Dst the canvas,
Src a uniform white, and Dot at (x, y); DrawString blends glyph coverage
onto the destination, clipped to the destination bounds.  The uniform
white source is absorbed into Face.glyph. -/
def drawText (img : Img) (face : Face) (x y : Int) (text : String) : Img :=
  { bounds := img.bounds
    px := fun p =>
      if memRect img.bounds p then
        match face.glyph text ⟨p.x - x, p.y - y⟩ with
        | some f => f (img.px p)
        | none => img.px p
      else img.px p }

/- ===== the canvas and the two centering helpers ===== -/

/-- The fixed canvas size of placeImageOnCanvas. -/
def canvasSize : Point := ⟨200, 200⟩

/-- The canvas rectangle image.Rectangle{image.Point{0, 0}, canvasSize}. -/
def canvasRect : Rect := ⟨⟨0, 0⟩, canvasSize⟩

/-- The offset line of placeImageOnCanvas:
canvasSize.Sub(srcSize).Div(2), Go division truncating toward zero. -/
def placeOffset (srcSize : Point) : Point := (canvasSize.sub srcSize).divTrunc 2

/-- The offset line of centerImageOnCanvas:
image.Pt((destSize.X-srcSize.X)/2, (destSize.Y-srcSize.Y)/2). -/
def centerOffset (destSize srcSize : Point) : Point :=
  ⟨Int.tdiv (destSize.x - srcSize.x) 2, Int.tdiv (destSize.y - srcSize.y) 2⟩

/-- Modelled from the spec (section 4.3): offset = (container - content) / 2
using integer floor division on each axis independently.  This is the
comparison definition for claim C5; the code definitions are placeOffset
and centerOffset above. -/
def specFloorOffset (destSize srcSize : Point) : Point :=
  ⟨Int.fdiv (destSize.x - srcSize.x) 2, Int.fdiv (destSize.y - srcSize.y) 2⟩

/-- Model of placeImageOnCanvas: allocate a 200x200 canvas, fill it with
image.Transparent using draw.Src (the buffer is transparent either way),
then draw the source centered with draw.Over.  The Go function returns a
never-nil error, so it is pure here. -/
def placeImageOnCanvas (src : Img) : Img :=
  let canvas : Img := { bounds := canvasRect, px := fun _ => transparentRgba }
  let offset := placeOffset src.bounds.size
  drawDraw canvas (src.bounds.add offset) src src.bounds.minP

/-- Model of centerImageOnCanvas: draw src centered on dest with
draw.Over. -/
def centerImageOnCanvas (src : Img) (dest : Img) : Img :=
  let offset := centerOffset dest.bounds.size src.bounds.size
  drawDraw dest (src.bounds.add offset) src src.bounds.minP

/- ===== claim C5 ===== -/

/-- Claim C5, counterexample: the claim says the centering offset is the
floor of (container - content) / 2 for every container and content size,
including content larger than the container.  The code uses Go integer
division, which truncates toward zero: for a 201x201 content on the
200x200 canvas the code computes offset (0, 0) while floor division
gives (-1, -1). -/
theorem C5_center_offset_not_floor :
    centerOffset canvasSize ⟨201, 201⟩ = ⟨0, 0⟩ ∧
    specFloorOffset canvasSize ⟨201, 201⟩ = ⟨-1, -1⟩ ∧
    centerOffset canvasSize ⟨201, 201⟩ ≠ specFloorOffset canvasSize ⟨201, 201⟩ := by
  refine ⟨?_, ?_, ?_⟩ <;> decide

/-- Claim C5, amended: the centering offset is (container - content) / 2
with Go integer division, truncating toward zero, independently on each
axis; both placement helpers (placeImageOnCanvas and centerImageOnCanvas)
compute the same formula, and it agrees with floor division whenever the
content is no larger than the container on both axes. -/
theorem C5_center_offset_trunc :
    (∀ s : Point, placeOffset s = centerOffset canvasSize s) ∧
    (∀ d s : Point, s.x ≤ d.x → s.y ≤ d.y →
      centerOffset d s = specFloorOffset d s) := by
  constructor
  · intro s; rfl
  · intro d s hx hy
    obtain ⟨m, hm⟩ := Int.eq_ofNat_of_zero_le (by omega : (0 : Int) ≤ d.x - s.x)
    obtain ⟨k, hk⟩ := Int.eq_ofNat_of_zero_le (by omega : (0 : Int) ≤ d.y - s.y)
    unfold centerOffset specFloorOffset
    rw [hm, hk]
    cases m <;> cases k <;> rfl

/-- Witness for the amended C5 theorem at a concrete 100x100 content on
the 200x200 canvas. -/
theorem C5_center_offset_trunc_witness :
    ((100 : Int) ≤ 200 ∧ (100 : Int) ≤ 200) ∧
    placeOffset ⟨100, 100⟩ = centerOffset canvasSize ⟨100, 100⟩ ∧
    centerOffset canvasSize ⟨100, 100⟩ = specFloorOffset canvasSize ⟨100, 100⟩ :=
  ⟨⟨by decide, by decide⟩,
   C5_center_offset_trunc.1 ⟨100, 100⟩,
   C5_center_offset_trunc.2 canvasSize ⟨100, 100⟩ (by decide) (by decide)⟩

/- ===== the load environment ===== -/

/-- The file-system environment the builder runs against.  A font load
(loadFont: ioutil.ReadFile, opentype.Parse, opentype.NewFace at a point
size) and an image load (loadImage: os.Open, image.Decode) either
produce a decoded value or fail with the error message Go would
propagate; both are modeled as total lookups so that the same request
replayed against the same environment is deterministic. -/
structure Env where
  fonts : String → Nat → Except String Face
  assets : String → Except String Img

/-- Path of the Inter font file. -/
def fontPath : String := "assets/fonts/Inter-Regular.ttf"

/-- The two point sizes buildPortrait uses. -/
def fontSizeSmall : Nat := 18

/-- The large point size for the level number. -/
def fontSizeLarge : Nat := 24

/-- Model of loadFont: resolved through the environment. -/
def loadFont (env : Env) (path : String) (size : Nat) : Except String Face :=
  env.fonts path size

/-- Model of loadImage: resolved through the environment. -/
def loadImage (env : Env) (filePath : String) : Except String Img :=
  env.assets filePath

/- ===== static character catalog ===== -/

/-- Go struct Character. -/
structure Character where
  Name : String
  Affiliation : String
  imgSrc : String
  maxZetas : Int
  maxOmicrons : Int
  deriving DecidableEq

def darthVaderName : String := "Darth Vader"

def darkSideTag : String := "dark_side"

def darthVaderImgSrc : String := "darth_vader.png"

def darthVaderID : String := "darth_vader"

/-- The single entry of the supportedCharacters map. -/
def darthVader : Character :=
  { Name := darthVaderName
    Affiliation := darkSideTag
    imgSrc := darthVaderImgSrc
    maxZetas := 3
    maxOmicrons := 1 }

/-- The supportedCharacters map, as a lookup function. -/
def supportedCharacters (id : String) : Option Character :=
  if id = darthVaderID then some darthVader else none

/-- Go struct CharacterPortrait (the validated request). -/
structure CharacterPortrait where
  Character : String
  GearLevel : Int
  RelicLevel : Int
  Zetas : Int
  Omicrons : Int
  deriving DecidableEq

/- ===== asset paths and layout constants of buildPortrait ===== -/

def charactersDir : String := "assets/characters/"

def gearDir : String := "assets/gear/"

def relicsDir : String := "assets/relics/"

def pngExt : String := ".png"

def levelBadgePath : String := "assets/badges/level.png"

def zetaBadgePath : String := "assets/badges/zeta.png"

def omicronBadgePath : String := "assets/badges/omicron.png"

/-- Path of the character art: "assets/characters/" + charData.imgSrc. -/
def characterPath (c : Character) : String := charactersDir ++ c.imgSrc

/-- Path of a gear border: "assets/gear/" + strconv.Itoa(gearLevel) + ".png". -/
def gearBorderPath (g : Int) : String := gearDir ++ toString g ++ pngExt

/-- Path of a relic border: "assets/relics/" + charData.Affiliation + ".png". -/
def relicBorderPath (c : Character) : String := relicsDir ++ c.Affiliation ++ pngExt

def zetaBadgePosition : Point := ⟨18, 100⟩

def zetaBadgeSize : Point := ⟨60, 60⟩

def omicronBadgePosition : Point := ⟨121, 100⟩

def omicronBadgeSize : Point := ⟨60, 60⟩

def levelBadgePosition : Point := ⟨75, 128⟩

def levelBadgeSize : Point := ⟨50, 44⟩

/-- The level string drawn on the level badge; hardcoded in the source
("The level is hardcoded in this example"). -/
def levelText : String := "85"

/-- Dot position of the zeta count text, exactly as computed in
buildPortrait from the small face and strconv.Itoa(portrait.Zetas). -/
def zetaTextPos (f : Face) (zetas : Int) : Point :=
  ⟨zetaBadgePosition.x + Int.tdiv (zetaBadgeSize.x - f.measure (toString zetas)) 2,
   zetaBadgePosition.y + Int.tdiv (zetaBadgeSize.y + f.ascentCeil) 2 - 4⟩

/-- Dot position of the omicron count text. -/
def omicronTextPos (f : Face) (omicrons : Int) : Point :=
  ⟨omicronBadgePosition.x + Int.tdiv (omicronBadgeSize.x - f.measure (toString omicrons)) 2,
   omicronBadgePosition.y + Int.tdiv (omicronBadgeSize.y + f.ascentCeil) 2 - 4⟩

/-- Dot position of the level text (vertical nudge -5 instead of -4). -/
def levelTextPos (f : Face) : Point :=
  ⟨levelBadgePosition.x + Int.tdiv (levelBadgeSize.x - f.measure levelText) 2,
   levelBadgePosition.y + Int.tdiv (levelBadgeSize.y + f.ascentCeil) 2 - 5⟩

/- ===== the builder ===== -/

/-- Event log of the draw calls buildPortrait performs, one constructor
per call site, each recording the destination rectangle and source point
of the draw.Over image draw, or the dot position and string of the
DrawString call.  Ops appear in execution order, so each op is
alpha-composited over the effect of the ones before it; the transparent
canvas fill of placeImageOnCanvas is part of the canvas allocation and
precedes every op. -/
inductive Op where
  | charDraw (r : Rect) (sp : Point)
  | gearBorder (r : Rect) (sp : Point)
  | relicBorder (r : Rect) (sp : Point)
  | levelBadge (r : Rect) (sp : Point)
  | levelCount (dot : Point) (text : String)
  | zetaBadge (r : Rect) (sp : Point)
  | zetaCount (dot : Point) (text : String)
  | omicronBadge (r : Rect) (sp : Point)
  | omicronCount (dot : Point) (text : String)
  deriving DecidableEq

/-- The part of buildPortrait between the font loads and the conditional
zeta badge: load the character image and center it on a fresh 200x200
canvas; if GearLevel < 13 load the gear border named by the numeric
level and center it, else load the relic border named by the affiliation
and draw it over the full canvas bounds at the origin; then load the
level badge, draw it at its fixed offset and draw the hardcoded level
text.  Only portrait.GearLevel is read here: the zeta/omicron text
positions the Go code precomputes at the top of buildPortrait are pure
and are recomputed, unchanged, inside addZeta and addOmicron. -/
def buildBase (env : Env) (portrait : CharacterPortrait) (charData : Character)
    (faceL : Face) : Except String (Img × List Op) :=
  match loadImage env (characterPath charData) with
  | .error e => .error e
  | .ok characterImg =>
    let finalImage := placeImageOnCanvas characterImg
    let ops0 := [Op.charDraw (characterImg.bounds.add (placeOffset characterImg.bounds.size))
      characterImg.bounds.minP]
    let borderStep : Except String (Img × List Op) :=
      if portrait.GearLevel < 13 then
        match loadImage env (gearBorderPath portrait.GearLevel) with
        | .error e => .error e
        | .ok borderImg =>
          .ok (centerImageOnCanvas borderImg finalImage,
            ops0 ++ [Op.gearBorder
              (borderImg.bounds.add (centerOffset finalImage.bounds.size borderImg.bounds.size))
              borderImg.bounds.minP])
      else
        match loadImage env (relicBorderPath charData) with
        | .error e => .error e
        | .ok relicBorderImg =>
          .ok (drawDraw finalImage finalImage.bounds relicBorderImg ⟨0, 0⟩,
            ops0 ++ [Op.relicBorder finalImage.bounds ⟨0, 0⟩])
    match borderStep with
    | .error e => .error e
    | .ok st =>
      match loadImage env levelBadgePath with
      | .error e => .error e
      | .ok levelBadgeImg =>
        let pos := levelTextPos faceL
        .ok (drawText (drawDraw st.1 (levelBadgeImg.bounds.add levelBadgePosition) levelBadgeImg ⟨0, 0⟩)
            faceL pos.x pos.y levelText,
          st.2 ++ [Op.levelBadge (levelBadgeImg.bounds.add levelBadgePosition) ⟨0, 0⟩,
            Op.levelCount pos levelText])

/-- The conditional zeta badge step: if portrait.Zetas > 0, load the zeta
badge, draw it at its fixed offset and draw the count, else do nothing. -/
def addZeta (env : Env) (faceS : Face) (portrait : CharacterPortrait)
    (st : Img × List Op) : Except String (Img × List Op) :=
  if 0 < portrait.Zetas then
    match loadImage env zetaBadgePath with
    | .error e => .error e
    | .ok zetaBadgeImg =>
      let pos := zetaTextPos faceS portrait.Zetas
      .ok (drawText (drawDraw st.1 (zetaBadgeImg.bounds.add zetaBadgePosition) zetaBadgeImg ⟨0, 0⟩)
          faceS pos.x pos.y (toString portrait.Zetas),
        st.2 ++ [Op.zetaBadge (zetaBadgeImg.bounds.add zetaBadgePosition) ⟨0, 0⟩,
          Op.zetaCount pos (toString portrait.Zetas)])
  else .ok st

/-- The conditional omicron badge step, same shape as addZeta. -/
def addOmicron (env : Env) (faceS : Face) (portrait : CharacterPortrait)
    (st : Img × List Op) : Except String (Img × List Op) :=
  if 0 < portrait.Omicrons then
    match loadImage env omicronBadgePath with
    | .error e => .error e
    | .ok omicronBadgeImg =>
      let pos := omicronTextPos faceS portrait.Omicrons
      .ok (drawText (drawDraw st.1 (omicronBadgeImg.bounds.add omicronBadgePosition) omicronBadgeImg ⟨0, 0⟩)
          faceS pos.x pos.y (toString portrait.Omicrons),
        st.2 ++ [Op.omicronBadge (omicronBadgeImg.bounds.add omicronBadgePosition) ⟨0, 0⟩,
          Op.omicronCount pos (toString portrait.Omicrons)])
  else .ok st

/-- Model of buildPortrait: the two font loads, then the base layers,
then the conditional zeta and omicron badges, in source order, each step
short-circuiting on .error exactly where the Go code returns (nil, err).
The result pairs the final image with the event log of draw calls. -/
def buildPortrait (env : Env) (portrait : CharacterPortrait)
    (charData : Character) : Except String (Img × List Op) :=
  match loadFont env fontPath fontSizeSmall with
  | .error e => .error e
  | .ok interFontFaceSmall =>
    match loadFont env fontPath fontSizeLarge with
    | .error e => .error e
    | .ok interFontFaceLarge =>
      match buildBase env portrait charData interFontFaceLarge with
      | .error e => .error e
      | .ok st =>
        match addZeta env interFontFaceSmall portrait st with
        | .error e => .error e
        | .ok st1 =>
          match addOmicron env interFontFaceSmall portrait st1 with
          | .error e => .error e
          | .ok st2 => .ok st2

/- ===== the request handler ===== -/

def emptyString : String := ""

def getMethod : String := "GET"

def gearLevelKey : String := "gear_level"

def relicLevelKey : String := "relic_level"

def zetasKey : String := "zetas"

def omicronsKey : String := "omicrons"

def intErrPre : String := "parameter \x27"

def intErrMid : String := "\x27 should be an integer, got \x27"

def intErrSuf : String := "\x27"

def methodMsg : String := "Only GET method is allowed"

def unsupportedPre : String := "Character \x27"

def unsupportedSuf : String := "\x27 is not supported by this API"

/-- The 400 message for an unknown character. -/
def unsupportedMsg (id : String) : String := unsupportedPre ++ id ++ unsupportedSuf

def gearLevelMsg : String := "The gear_level must be between 1 and 13"

def relicProvidedMsg : String := "The relic_level should not be provided if gear_level is not 13"

def relicRangeMsg : String := "The relic_level must be between 1 and 9"

def zetaMsgPre : String := "The zeta level must be between 0 and "

def omicronMsgPre : String := "The omicron level must be between 0 and "

def forSep : String := " for "

/-- The 400 message of the zeta range check; it names the per-character
maximum and the character name, via fmt.Sprintf("%d" ... "%s"). -/
def zetaRangeMsg (c : Character) : String :=
  zetaMsgPre ++ toString c.maxZetas ++ forSep ++ c.Name

/-- The 400 message of the omicron range check. -/
def omicronRangeMsg (c : Character) : String :=
  omicronMsgPre ++ toString c.maxOmicrons ++ forSep ++ c.Name

def buildFailPre : String := "Failed to create portrait: "

/-- Model of getIntFromQuery: given the (first) value of the query key if
present, return the pair Go returns: 0 and no error when the parameter
is missing or empty, the parsed value when Atoi succeeds, and 0 together
with an error message when Atoi fails. -/
def getIntFromQuery (value : Option String) (key : String) : Int × Option String :=
  match value with
  | none => (0, none)
  | some s =>
    if s.length = 0 then (0, none)
    else
      match atoi s with
      | some n => (n, none)
      | none => (0, some (intErrPre ++ key ++ intErrMid ++ s ++ intErrSuf))

/-- The query parameters createPortraitHandler reads, each the first
value bound to the key when the key is present. -/
structure QueryParams where
  char : Option String
  gear_level : Option String
  relic_level : Option String
  zetas : Option String
  omicrons : Option String

/-- The response of createPortraitHandler: http.Error with status 405,
400 or 500 and a plain-text message, or a 200 image/png response whose
body is the PNG encoding of the composed image (encoding is modeled as
succeeding; the op list is carried along as the build event log). -/
inductive HandlerResult where
  | methodNotAllowed (msg : String)
  | badRequest (msg : String)
  | internalError (msg : String)
  | okPNG (img : Img) (ops : List Op)

/-- Tail of createPortraitHandler after validation: invoke the builder;
on error respond 500 with the underlying message attached, on success
stream the image as image/png. -/
def handleBuild (env : Env) (portrait : CharacterPortrait)
    (c : Character) : HandlerResult :=
  match buildPortrait env portrait c with
  | .error e => .internalError (buildFailPre ++ e)
  | .ok st => .okPNG st.1 st.2

/-- The omicrons check of createPortraitHandler (parse error ignored to
allow the default value 0), then the build. -/
def checkOmicrons (env : Env) (q : QueryParams) (charID : String)
    (gearLevel relicLevel zetas : Int) (c : Character) : HandlerResult :=
  let om := getIntFromQuery q.omicrons omicronsKey
  if om.1 < 0 ∨ c.maxOmicrons < om.1 then .badRequest (omicronRangeMsg c)
  else handleBuild env ⟨charID, gearLevel, relicLevel, zetas, om.1⟩ c

/-- The zetas check of createPortraitHandler (parse error ignored to
allow the default value 0). -/
def checkZetas (env : Env) (q : QueryParams) (charID : String)
    (gearLevel relicLevel : Int) (c : Character) : HandlerResult :=
  let ze := getIntFromQuery q.zetas zetasKey
  if ze.1 < 0 ∨ c.maxZetas < ze.1 then .badRequest (zetaRangeMsg c)
  else checkOmicrons env q charID gearLevel relicLevel ze.1 c

/-- The two relic_level checks of createPortraitHandler: a nonzero value
parsed without error is rejected when gear_level is not 13, and for
gear_level 13 the parsed value must lie in [1, 9]. -/
def checkRelic (env : Env) (q : QueryParams) (charID : String)
    (gearLevel : Int) (c : Character) : HandlerResult :=
  let re := getIntFromQuery q.relic_level relicLevelKey
  if gearLevel ≠ 13 ∧ re.1 ≠ 0 ∧ re.2 = none then .badRequest relicProvidedMsg
  else if gearLevel = 13 ∧ (re.1 < 1 ∨ 9 < re.1) then .badRequest relicRangeMsg
  else checkZetas env q charID gearLevel re.1 c

/-- Model of createPortraitHandler: reject non-GET methods with 405,
unknown characters and out-of-range parameters with 400, then build. -/
def createPortraitHandler (env : Env) (method : String)
    (q : QueryParams) : HandlerResult :=
  if method ≠ getMethod then .methodNotAllowed methodMsg
  else
    let charID := q.char.getD emptyString
    match supportedCharacters charID with
    | none => .badRequest (unsupportedMsg charID)
    | some c =>
      let ge := getIntFromQuery q.gear_level gearLevelKey
      if ge.2 ≠ none ∨ ge.1 < 1 ∨ 13 < ge.1 then .badRequest gearLevelMsg
      else checkRelic env q charID ge.1 c

/- ===== helper lemmas: getIntFromQuery and atoi ===== -/

theorem data_eq_nil_of_length_eq_zero {s : String} (h : s.length = 0) :
    s.data = [] := by
  cases s with
  | mk data => simpa [String.length] using h

theorem atoi_of_length_eq_zero {s : String} (h : s.length = 0) : atoi s = none := by
  simp [atoi, data_eq_nil_of_length_eq_zero h]

theorem getIntFromQuery_none (key : String) :
    getIntFromQuery none key = (0, none) := rfl

theorem getIntFromQuery_parsed {s : String} {n : Int} (h : atoi s = some n)
    (key : String) : getIntFromQuery (some s) key = (n, none) := by
  unfold getIntFromQuery
  by_cases hl : s.length = 0
  · rw [atoi_of_length_eq_zero hl] at h
    simp at h
  · simp [hl, h]

theorem getIntFromQuery_fst_err {s : String} (h : atoi s = none) (key : String) :
    (getIntFromQuery (some s) key).1 = 0 := by
  unfold getIntFromQuery
  by_cases hl : s.length = 0 <;> simp [hl, h]

/- ===== claim C1 ===== -/

/-- Claim C1: for a GET request to /create with a known character, a
missing, non-numeric or out-of-range gear_level makes the handler
respond 400 with the gear_level message, for every load environment
(so the portrait builder is never consulted); a gear_level that parses
into [1, 13] passes the check and the handler proceeds to the
relic_level stage. -/
theorem C1_gear_level_validation (q : QueryParams) (charID : String)
    (c : Character) (hchar : q.char = some charID)
    (hknown : supportedCharacters charID = some c) :
    (q.gear_level = none →
      ∀ env, createPortraitHandler env getMethod q = .badRequest gearLevelMsg) ∧
    (∀ s, q.gear_level = some s → atoi s = none →
      ∀ env, createPortraitHandler env getMethod q = .badRequest gearLevelMsg) ∧
    (∀ s n, q.gear_level = some s → atoi s = some n → (n < 1 ∨ 13 < n) →
      ∀ env, createPortraitHandler env getMethod q = .badRequest gearLevelMsg) ∧
    (∀ s n, q.gear_level = some s → atoi s = some n → 1 ≤ n → n ≤ 13 →
      ∀ env, createPortraitHandler env getMethod q = checkRelic env q charID n c) := by
  refine ⟨?_, ?_, ?_, ?_⟩
  · intro hg env
    unfold createPortraitHandler
    simp [hchar, hknown, hg, getIntFromQuery_none]
  · intro s hg hs env
    unfold createPortraitHandler
    have h0 := getIntFromQuery_fst_err hs gearLevelKey
    simp [hchar, hknown, hg, h0]
  · intro s n hg hs hout env
    unfold createPortraitHandler
    simp [hchar, hknown, hg, getIntFromQuery_parsed hs]
    omega
  · intro s n hg hs h1 h13 env
    unfold createPortraitHandler
    simp [hchar, hknown, hg, getIntFromQuery_parsed hs]
    omega

/- ===== claim C2 ===== -/

/-- Claim C2: with a known character, a gear_level parsed into [1, 12]
together with a relic_level that parses to a nonzero integer draws the
"should not be provided" 400; with gear_level parsed as 13, a missing,
non-numeric or out-of-[1,9] relic_level draws the range 400.  Both hold
for every load environment. -/
theorem C2_relic_level_validation (q : QueryParams) (charID : String)
    (c : Character) (gs : String) (hchar : q.char = some charID)
    (hknown : supportedCharacters charID = some c)
    (hgs : q.gear_level = some gs) :
    (∀ g rs r, atoi gs = some g → 1 ≤ g → g ≤ 12 →
      q.relic_level = some rs → atoi rs = some r → r ≠ 0 →
      ∀ env, createPortraitHandler env getMethod q = .badRequest relicProvidedMsg) ∧
    (atoi gs = some 13 →
      (q.relic_level = none ∨
       (∃ rs, q.relic_level = some rs ∧ atoi rs = none) ∨
       (∃ rs r, q.relic_level = some rs ∧ atoi rs = some r ∧ (r < 1 ∨ 9 < r))) →
      ∀ env, createPortraitHandler env getMethod q = .badRequest relicRangeMsg) := by
  constructor
  · intro g rs r hg h1 h12 hrs hr hr0 env
    unfold createPortraitHandler
    rw [if_neg (fun h => h rfl)]
    have hpass : ¬(((g : Int), (none : Option String)).2 ≠ none ∨ g < 1 ∨ 13 < g) := by
      simp
      omega
    rw [hchar]
    simp only [Option.getD_some]
    rw [hknown]
    simp only [hgs, getIntFromQuery_parsed hg, if_neg hpass]
    unfold checkRelic
    simp only [hrs, getIntFromQuery_parsed hr]
    rw [if_pos ⟨by omega, hr0, trivial⟩]
  · intro hg13 hbad env
    unfold createPortraitHandler
    rw [if_neg (fun h => h rfl)]
    have hpass : ¬(((13 : Int), (none : Option String)).2 ≠ none ∨ (13 : Int) < 1 ∨ 13 < (13 : Int)) := by
      simp
    rw [hchar]
    simp only [Option.getD_some]
    rw [hknown]
    simp only [hgs, getIntFromQuery_parsed hg13, if_neg hpass]
    unfold checkRelic
    rcases hbad with hrn | ⟨rs, hrs, hre⟩ | ⟨rs, r, hrs, hre, hout⟩
    · simp [hrn, getIntFromQuery_none]
    · have h0 := getIntFromQuery_fst_err hre relicLevelKey
      simp [hrs, h0]
    · simp [hrs, getIntFromQuery_parsed hre]
      omega

/- ===== claim C10 ===== -/

/-- Claim C10: with a known character and gear_level parsed into [1, 12],
a present but non-numeric relic_level is not rejected: the parse error
leaves the parsed value 0, the err == nil conjunct of the nonzero-relic
check is false, and the handler proceeds to the zetas stage with
relicLevel 0 (so a build can still answer 200, as the witness shows). -/
theorem C10_relic_parse_error_lenient (q : QueryParams) (charID : String)
    (c : Character) (gs rs : String) (g : Int)
    (hchar : q.char = some charID) (hknown : supportedCharacters charID = some c)
    (hgs : q.gear_level = some gs) (hg : atoi gs = some g)
    (h1 : 1 ≤ g) (h12 : g ≤ 12)
    (hrs : q.relic_level = some rs) (hr : atoi rs = none) :
    ∀ env, createPortraitHandler env getMethod q = checkZetas env q charID g 0 c := by
  intro env
  unfold createPortraitHandler
  rw [if_neg (fun h => h rfl)]
  have hpass : ¬(((g : Int), (none : Option String)).2 ≠ none ∨ g < 1 ∨ 13 < g) := by
    simp
    omega
  rw [hchar]
  simp only [Option.getD_some]
  rw [hknown]
  simp only [hgs, getIntFromQuery_parsed hg, if_neg hpass]
  unfold checkRelic
  have h0 := getIntFromQuery_fst_err hr relicLevelKey
  have hc1 : ¬(g ≠ 13 ∧ (getIntFromQuery q.relic_level relicLevelKey).1 ≠ 0 ∧
      (getIntFromQuery q.relic_level relicLevelKey).2 = none) := by
    rw [hrs, h0]
    simp
  have hc2 : ¬(g = 13 ∧ ((getIntFromQuery q.relic_level relicLevelKey).1 < 1 ∨
      9 < (getIntFromQuery q.relic_level relicLevelKey).1)) := by
    rw [hrs]
    intro hcon
    omega
  rw [if_neg hc1, if_neg hc2, hrs, h0]

/- ===== claim C3 ===== -/

/-- Claim C3: for a GET request with a known character whose gear and
relic parameters pass validation, the zetas and omicrons parameters
default to 0 when absent, empty or non-numeric (the parse failure is
silent: the handler continues, it never answers 400 for it); a value
parsed outside [0, the per-character maximum] draws a 400 whose message
names that maximum (zetaRangeMsg / omicronRangeMsg); the boundary
values 0 and the maximum pass the check.  The zeta parts are stated on
the full handler, the omicron parts on the checkOmicrons stage the
handler has then reached. -/
theorem C3_zeta_omicron_validation (q : QueryParams) (charID : String)
    (c : Character) (gs : String) (g rv : Int)
    (hchar : q.char = some charID) (hknown : supportedCharacters charID = some c)
    (hgs : q.gear_level = some gs) (hg : atoi gs = some g)
    (hg1 : 1 ≤ g) (hg2 : g ≤ 13)
    (hrel : (g ≠ 13 ∧ q.relic_level = none ∧ rv = 0) ∨
            (g = 13 ∧ ∃ rs, q.relic_level = some rs ∧ atoi rs = some rv ∧ 1 ≤ rv ∧ rv ≤ 9))
    (hmz : 0 ≤ c.maxZetas) (hmo : 0 ≤ c.maxOmicrons) :
    ((q.zetas = none ∨ q.zetas = some emptyString ∨
        (∃ zs, q.zetas = some zs ∧ atoi zs = none)) →
      ∀ env, createPortraitHandler env getMethod q = checkOmicrons env q charID g rv 0 c) ∧
    (∀ zs v, q.zetas = some zs → atoi zs = some v → (v < 0 ∨ c.maxZetas < v) →
      ∀ env, createPortraitHandler env getMethod q = .badRequest (zetaRangeMsg c)) ∧
    (∀ zs v, q.zetas = some zs → atoi zs = some v → (v = 0 ∨ v = c.maxZetas) →
      ∀ env, createPortraitHandler env getMethod q = checkOmicrons env q charID g rv v c) ∧
    (∀ zv, (q.omicrons = none ∨ q.omicrons = some emptyString ∨
        (∃ os, q.omicrons = some os ∧ atoi os = none)) →
      ∀ env, checkOmicrons env q charID g rv zv c = handleBuild env ⟨charID, g, rv, zv, 0⟩ c) ∧
    (∀ os v zv, q.omicrons = some os → atoi os = some v → (v < 0 ∨ c.maxOmicrons < v) →
      ∀ env, checkOmicrons env q charID g rv zv c = .badRequest (omicronRangeMsg c)) ∧
    (∀ os v zv, q.omicrons = some os → atoi os = some v → (v = 0 ∨ v = c.maxOmicrons) →
      ∀ env, checkOmicrons env q charID g rv zv c = handleBuild env ⟨charID, g, rv, zv, v⟩ c) := by
  have hstep : ∀ env, createPortraitHandler env getMethod q = checkZetas env q charID g rv c := by
    intro env
    unfold createPortraitHandler
    rw [if_neg (fun h => h rfl)]
    rw [hchar]
    simp only [Option.getD_some]
    rw [hknown]
    have hpass : ¬(((g : Int), (none : Option String)).2 ≠ none ∨ g < 1 ∨ 13 < g) := by
      simp
      omega
    simp only [hgs, getIntFromQuery_parsed hg, if_neg hpass]
    unfold checkRelic
    rcases hrel with ⟨hne, hrn, hrv⟩ | ⟨h13, rs, hrs, hrv, hr1, hr9⟩
    · subst hrv
      simp [hrn, getIntFromQuery_none, hne]
    · simp only [hrs, getIntFromQuery_parsed hrv]
      rw [if_neg (by simp [h13])]
      rw [if_neg (by rw [h13]; simp; omega)]
  have hzeta0 : (q.zetas = none ∨ q.zetas = some emptyString ∨
      (∃ zs, q.zetas = some zs ∧ atoi zs = none)) →
      (getIntFromQuery q.zetas zetasKey).1 = 0 := by
    rintro (hz | hz | ⟨zs, hz, hzn⟩)
    · rw [hz]
      rfl
    · rw [hz]
      rfl
    · rw [hz]
      exact getIntFromQuery_fst_err hzn zetasKey
  have homi0 : (q.omicrons = none ∨ q.omicrons = some emptyString ∨
      (∃ os, q.omicrons = some os ∧ atoi os = none)) →
      (getIntFromQuery q.omicrons omicronsKey).1 = 0 := by
    rintro (ho | ho | ⟨os, ho, hon⟩)
    · rw [ho]
      rfl
    · rw [ho]
      rfl
    · rw [ho]
      exact getIntFromQuery_fst_err hon omicronsKey
  refine ⟨?_, ?_, ?_, ?_, ?_, ?_⟩
  · intro hz env
    rw [hstep env]
    unfold checkZetas
    simp only [hzeta0 hz]
    rw [if_neg (by omega)]
  · intro zs v hz hv hout env
    rw [hstep env]
    unfold checkZetas
    simp only [hz, getIntFromQuery_parsed hv]
    rw [if_pos (by simpa using hout)]
  · intro zs v hz hv hbound env
    rw [hstep env]
    unfold checkZetas
    simp only [hz, getIntFromQuery_parsed hv]
    rw [if_neg (by simp; omega)]
  · intro zv ho env
    unfold checkOmicrons
    simp only [homi0 ho]
    rw [if_neg (by omega)]
  · intro os v zv ho hv hout env
    unfold checkOmicrons
    simp only [ho, getIntFromQuery_parsed hv]
    rw [if_pos (by simpa using hout)]
  · intro os v zv ho hv hbound env
    unfold checkOmicrons
    simp only [ho, getIntFromQuery_parsed hv]
    rw [if_neg (by simp; omega)]

/- ===== helper lemmas: builder inversion ===== -/

theorem drawDraw_bounds (dst : Img) (r : Rect) (src : Img) (sp : Point) :
    (drawDraw dst r src sp).bounds = dst.bounds := rfl

theorem drawText_bounds (img : Img) (face : Face) (x y : Int) (t : String) :
    (drawText img face x y t).bounds = img.bounds := rfl

theorem placeImageOnCanvas_bounds (src : Img) :
    (placeImageOnCanvas src).bounds = canvasRect := rfl

/-- Successful builds decompose into successful stages, in source order. -/
theorem buildPortrait_stages {env : Env} {p : CharacterPortrait} {c : Character}
    {out : Img × List Op} (h : buildPortrait env p c = .ok out) :
    ∃ fS fL st st1, loadFont env fontPath fontSizeSmall = .ok fS ∧
      loadFont env fontPath fontSizeLarge = .ok fL ∧
      buildBase env p c fL = .ok st ∧
      addZeta env fS p st = .ok st1 ∧
      addOmicron env fS p st1 = .ok out := by
  unfold buildPortrait at h
  cases h18 : loadFont env fontPath fontSizeSmall with
  | error e => simp [h18] at h
  | ok fS =>
    simp only [h18] at h
    cases h24 : loadFont env fontPath fontSizeLarge with
    | error e => simp [h24] at h
    | ok fL =>
      simp only [h24] at h
      cases hb : buildBase env p c fL with
      | error e => simp [hb] at h
      | ok st =>
        simp only [hb] at h
        cases hz : addZeta env fS p st with
        | error e => simp [hz] at h
        | ok st1 =>
          simp only [hz] at h
          cases ho : addOmicron env fS p st1 with
          | error e => simp [ho] at h
          | ok st2 =>
            simp only [ho, Except.ok.injEq] at h
            exact ⟨fS, fL, st, st1, rfl, rfl, hb, hz, by rw [ho, h]⟩

/-- Inversion of buildBase on success: which loads succeeded and the
exact image and op list produced, split on the gear/relic branch. -/
theorem buildBase_shape {env : Env} {p : CharacterPortrait} {c : Character}
    {fL : Face} {st : Img × List Op} (h : buildBase env p c fL = .ok st) :
    ∃ ci li, loadImage env (characterPath c) = .ok ci ∧
      loadImage env levelBadgePath = .ok li ∧
      ((p.GearLevel < 13 ∧ ∃ bi, loadImage env (gearBorderPath p.GearLevel) = .ok bi ∧
        st.1 = drawText (drawDraw (centerImageOnCanvas bi (placeImageOnCanvas ci))
            (li.bounds.add levelBadgePosition) li ⟨0, 0⟩)
            fL (levelTextPos fL).x (levelTextPos fL).y levelText ∧
        st.2 = [Op.charDraw (ci.bounds.add (placeOffset ci.bounds.size)) ci.bounds.minP,
           Op.gearBorder (bi.bounds.add
             (centerOffset (placeImageOnCanvas ci).bounds.size bi.bounds.size)) bi.bounds.minP,
           Op.levelBadge (li.bounds.add levelBadgePosition) ⟨0, 0⟩,
           Op.levelCount (levelTextPos fL) levelText]) ∨
       (¬p.GearLevel < 13 ∧ ∃ bi, loadImage env (relicBorderPath c) = .ok bi ∧
        st.1 = drawText (drawDraw (drawDraw (placeImageOnCanvas ci)
            (placeImageOnCanvas ci).bounds bi ⟨0, 0⟩)
            (li.bounds.add levelBadgePosition) li ⟨0, 0⟩)
            fL (levelTextPos fL).x (levelTextPos fL).y levelText ∧
        st.2 = [Op.charDraw (ci.bounds.add (placeOffset ci.bounds.size)) ci.bounds.minP,
           Op.relicBorder (placeImageOnCanvas ci).bounds ⟨0, 0⟩,
           Op.levelBadge (li.bounds.add levelBadgePosition) ⟨0, 0⟩,
           Op.levelCount (levelTextPos fL) levelText])) := by
  unfold buildBase at h
  cases hci : loadImage env (characterPath c) with
  | error e => simp [hci] at h
  | ok ci =>
    simp only [hci] at h
    by_cases hg : p.GearLevel < 13
    · rw [if_pos hg] at h
      cases hbi : loadImage env (gearBorderPath p.GearLevel) with
      | error e => simp [hbi] at h
      | ok bi =>
        simp only [hbi] at h
        cases hli : loadImage env levelBadgePath with
        | error e => simp [hli] at h
        | ok li =>
          simp only [hli, Except.ok.injEq] at h
          refine ⟨ci, li, rfl, rfl, Or.inl ⟨hg, bi, rfl, ?_, ?_⟩⟩ <;> rw [← h] <;> rfl
    · rw [if_neg hg] at h
      cases hbi : loadImage env (relicBorderPath c) with
      | error e => simp [hbi] at h
      | ok bi =>
        simp only [hbi] at h
        cases hli : loadImage env levelBadgePath with
        | error e => simp [hli] at h
        | ok li =>
          simp only [hli, Except.ok.injEq] at h
          refine ⟨ci, li, rfl, rfl, Or.inr ⟨hg, bi, rfl, ?_, ?_⟩⟩ <;> rw [← h] <;> rfl

/-- Inversion of the conditional zeta step. -/
theorem addZeta_shape {env : Env} {faceS : Face} {p : CharacterPortrait}
    {st st1 : Img × List Op} (h : addZeta env faceS p st = .ok st1) :
    (¬0 < p.Zetas ∧ st1 = st) ∨
    (0 < p.Zetas ∧ ∃ zi, loadImage env zetaBadgePath = .ok zi ∧
      st1.1 = drawText (drawDraw st.1 (zi.bounds.add zetaBadgePosition) zi ⟨0, 0⟩)
          faceS (zetaTextPos faceS p.Zetas).x (zetaTextPos faceS p.Zetas).y
          (toString p.Zetas) ∧
      st1.2 = st.2 ++ [Op.zetaBadge (zi.bounds.add zetaBadgePosition) ⟨0, 0⟩,
          Op.zetaCount (zetaTextPos faceS p.Zetas) (toString p.Zetas)]) := by
  unfold addZeta at h
  by_cases hz : 0 < p.Zetas
  · rw [if_pos hz] at h
    cases hzi : loadImage env zetaBadgePath with
    | error e => simp [hzi] at h
    | ok zi =>
      simp only [hzi, Except.ok.injEq] at h
      refine Or.inr ⟨hz, zi, rfl, ?_, ?_⟩ <;> rw [← h] <;> rfl
  · rw [if_neg hz] at h
    simp only [Except.ok.injEq] at h
    exact Or.inl ⟨hz, h.symm⟩

/-- Inversion of the conditional omicron step. -/
theorem addOmicron_shape {env : Env} {faceS : Face} {p : CharacterPortrait}
    {st st1 : Img × List Op} (h : addOmicron env faceS p st = .ok st1) :
    (¬0 < p.Omicrons ∧ st1 = st) ∨
    (0 < p.Omicrons ∧ ∃ oi, loadImage env omicronBadgePath = .ok oi ∧
      st1.1 = drawText (drawDraw st.1 (oi.bounds.add omicronBadgePosition) oi ⟨0, 0⟩)
          faceS (omicronTextPos faceS p.Omicrons).x (omicronTextPos faceS p.Omicrons).y
          (toString p.Omicrons) ∧
      st1.2 = st.2 ++ [Op.omicronBadge (oi.bounds.add omicronBadgePosition) ⟨0, 0⟩,
          Op.omicronCount (omicronTextPos faceS p.Omicrons) (toString p.Omicrons)]) := by
  unfold addOmicron at h
  by_cases ho : 0 < p.Omicrons
  · rw [if_pos ho] at h
    cases hoi : loadImage env omicronBadgePath with
    | error e => simp [hoi] at h
    | ok oi =>
      simp only [hoi, Except.ok.injEq] at h
      refine Or.inr ⟨ho, oi, rfl, ?_, ?_⟩ <;> rw [← h] <;> rfl
  · rw [if_neg ho] at h
    simp only [Except.ok.injEq] at h
    exact Or.inl ⟨ho, h.symm⟩

attribute [simp] drawDraw_bounds drawText_bounds placeImageOnCanvas_bounds

theorem centerImageOnCanvas_bounds (src dest : Img) :
    (centerImageOnCanvas src dest).bounds = dest.bounds := rfl

attribute [simp] centerImageOnCanvas_bounds

/- ===== claim C4 ===== -/

/-- Claim C4: on every successful build, if the gear level is below 13
the builder has loaded the border image at "assets/gear/" ++ the numeric
level ++ ".png" and drawn it with the centering formula, immediately
after (hence composited draw-over on top of) the centered character
draw; if the gear level is 13 or more (validated requests have exactly
13) it has instead loaded the relic border named by the affiliation and
drawn it over the full canvas bounds with source point at the origin,
again immediately after the character draw. -/
theorem C4_border_selection {env : Env} {p : CharacterPortrait} {c : Character}
    {img : Img} {ops : List Op} (h : buildPortrait env p c = .ok (img, ops)) :
    (p.GearLevel < 13 → ∃ ci bi rest,
      loadImage env (characterPath c) = .ok ci ∧
      loadImage env (gearBorderPath p.GearLevel) = .ok bi ∧
      ops = Op.charDraw (ci.bounds.add (placeOffset ci.bounds.size)) ci.bounds.minP ::
        Op.gearBorder (bi.bounds.add (centerOffset canvasRect.size bi.bounds.size))
          bi.bounds.minP :: rest) ∧
    (¬p.GearLevel < 13 → ∃ ci bi rest,
      loadImage env (characterPath c) = .ok ci ∧
      loadImage env (relicBorderPath c) = .ok bi ∧
      ops = Op.charDraw (ci.bounds.add (placeOffset ci.bounds.size)) ci.bounds.minP ::
        Op.relicBorder canvasRect ⟨0, 0⟩ :: rest) := by
  obtain ⟨fS, fL, st, st1, h18, h24, hb, hz, ho⟩ := buildPortrait_stages h
  obtain ⟨ci, li, hci, hli, hcase⟩ := buildBase_shape hb
  have hops : ∃ t, ops = st.2 ++ t := by
    have e1 : st1.2 = st.2 ∨ ∃ zs, st1.2 = st.2 ++ zs := by
      rcases addZeta_shape hz with ⟨_, he⟩ | ⟨_, zi, _, _, he⟩
      · exact Or.inl (by rw [he])
      · exact Or.inr ⟨_, he⟩
    have e2 : ops = st1.2 ∨ ∃ os, ops = st1.2 ++ os := by
      rcases addOmicron_shape ho with ⟨_, he⟩ | ⟨_, oi, _, _, he⟩
      · exact Or.inl (congrArg Prod.snd he)
      · exact Or.inr ⟨_, he⟩
    rcases e2 with he2 | ⟨os, he2⟩ <;> rcases e1 with he1 | ⟨zs, he1⟩
    · exact ⟨[], by rw [he2, he1, List.append_nil]⟩
    · exact ⟨zs, by rw [he2, he1]⟩
    · exact ⟨os, by rw [he2, he1]⟩
    · exact ⟨zs ++ os, by rw [he2, he1, List.append_assoc]⟩
  obtain ⟨t, hopseq⟩ := hops
  constructor
  · intro hg
    rcases hcase with ⟨_, bi, hbi, _, hst2⟩ | ⟨hng, _⟩
    · refine ⟨ci, bi, [Op.levelBadge (li.bounds.add levelBadgePosition) ⟨0, 0⟩,
        Op.levelCount (levelTextPos fL) levelText] ++ t, hci, hbi, ?_⟩
      rw [hopseq, hst2]
      rfl
    · exact absurd hg hng
  · intro hg
    rcases hcase with ⟨hlt, _⟩ | ⟨_, bi, hbi, _, hst2⟩
    · exact absurd hlt hg
    · refine ⟨ci, bi, [Op.levelBadge (li.bounds.add levelBadgePosition) ⟨0, 0⟩,
        Op.levelCount (levelTextPos fL) levelText] ++ t, hci, hbi, ?_⟩
      rw [hopseq, hst2]
      rfl

/- ===== claim C7 ===== -/

/-- Claim C7: every successful build returns an image whose bounds are
exactly the 200x200 canvas rectangle: placeImageOnCanvas allocates the
canvas at 200x200 and every subsequent draw.Draw and DrawString keeps
the bounds of the buffer it writes into. -/
theorem C7_canvas_bounds {env : Env} {p : CharacterPortrait} {c : Character}
    {img : Img} {ops : List Op} (h : buildPortrait env p c = .ok (img, ops)) :
    img.bounds = canvasRect ∧ canvasRect = ⟨⟨0, 0⟩, ⟨200, 200⟩⟩ := by
  obtain ⟨fS, fL, st, st1, h18, h24, hb, hz, ho⟩ := buildPortrait_stages h
  obtain ⟨ci, li, hci, hli, hcase⟩ := buildBase_shape hb
  have hstb : st.1.bounds = canvasRect := by
    rcases hcase with ⟨_, bi, _, hst1, _⟩ | ⟨_, bi, _, hst1, _⟩ <;> rw [hst1] <;> simp
  have h1b : st1.1.bounds = st.1.bounds := by
    rcases addZeta_shape hz with ⟨_, he⟩ | ⟨_, zi, _, he, _⟩
    · rw [he]
    · rw [he]
      simp
  have h2b : img.bounds = st1.1.bounds := by
    rcases addOmicron_shape ho with ⟨_, he⟩ | ⟨_, oi, _, he, _⟩
    · rw [← he]
    · replace he : img = _ := he
      rw [he]
      simp
  exact ⟨by rw [h2b, h1b, hstb], rfl⟩

/- ===== claim C9 ===== -/

/-- The level string of a levelCount op; used to collect every string the
build draws with the large face on the level badge. -/
def levelCountText (op : Op) : Option String :=
  match op with
  | .levelCount _ s => some s
  | _ => none

/-- Claim C9: on every successful build, whatever the request parameters
and environment, the level badge text drawn is exactly one string, the
hardcoded constant "85" (the right-hand side does not depend on the
portrait, the character or the environment, so any two validated
requests draw the same fixed level string). -/
theorem C9_level_text_constant {env : Env} {p : CharacterPortrait} {c : Character}
    {img : Img} {ops : List Op} (h : buildPortrait env p c = .ok (img, ops)) :
    ops.filterMap levelCountText = [levelText] ∧ levelText = "85" := by
  obtain ⟨fS, fL, st, st1, h18, h24, hb, hz, ho⟩ := buildPortrait_stages h
  obtain ⟨ci, li, hci, hli, hcase⟩ := buildBase_shape hb
  have hst : st.2.filterMap levelCountText = [levelText] := by
    rcases hcase with ⟨_, bi, _, _, hst2⟩ | ⟨_, bi, _, _, hst2⟩ <;> rw [hst2] <;> rfl
  have h1 : st1.2.filterMap levelCountText = [levelText] := by
    rcases addZeta_shape hz with ⟨_, he⟩ | ⟨_, zi, _, _, he⟩
    · rw [he, hst]
    · rw [he, List.filterMap_append, hst]
      rfl
  have h2 : ops.filterMap levelCountText = [levelText] := by
    rcases addOmicron_shape ho with ⟨_, he⟩ | ⟨_, oi, _, _, he⟩
    · replace he : ops = st1.2 := congrArg Prod.snd he
      rw [he, h1]
    · replace he : ops = st1.2 ++ _ := he
      rw [he, List.filterMap_append, h1]
      rfl
  exact ⟨h2, rfl⟩

/- ===== claim C6 ===== -/

/-- The error component of a load or build result. -/
def errOf {α : Type} (r : Except String α) : Option String :=
  match r with
  | .error e => some e
  | .ok _ => none

/-- Modelled from the spec (4.2, 7): the first asset/font error
encountered, with the loads listed in the fixed order the builder
performs them: small font, large font, character image, gear-or-relic
border, level badge, then the zeta badge only when Zetas > 0 and the
omicron badge only when Omicrons > 0.  This is the comparison definition
for claim C6; buildPortrait above is the code definition. -/
def firstLoadError (env : Env) (p : CharacterPortrait) (c : Character) : Option String :=
  (errOf (loadFont env fontPath fontSizeSmall)).orElse fun _ =>
  (errOf (loadFont env fontPath fontSizeLarge)).orElse fun _ =>
  (errOf (loadImage env (characterPath c))).orElse fun _ =>
  (errOf (if p.GearLevel < 13 then loadImage env (gearBorderPath p.GearLevel)
    else loadImage env (relicBorderPath c))).orElse fun _ =>
  (errOf (loadImage env levelBadgePath)).orElse fun _ =>
  (if 0 < p.Zetas then errOf (loadImage env zetaBadgePath) else none).orElse fun _ =>
  (if 0 < p.Omicrons then errOf (loadImage env omicronBadgePath) else none)

/-- The builder fails with exactly the first failing load in source
order, and succeeds exactly when no load fails. -/
theorem buildPortrait_err_eq (env : Env) (p : CharacterPortrait) (c : Character) :
    errOf (buildPortrait env p c) = firstLoadError env p c := by
  unfold buildPortrait firstLoadError buildBase addZeta addOmicron
  cases loadFont env fontPath fontSizeSmall with
  | error e => simp [errOf, Option.orElse]
  | ok fS =>
  cases loadFont env fontPath fontSizeLarge with
  | error e => simp [errOf, Option.orElse]
  | ok fL =>
  cases loadImage env (characterPath c) with
  | error e => simp [errOf, Option.orElse]
  | ok ci =>
  by_cases hg : p.GearLevel < 13
  · simp only [if_pos hg]
    cases loadImage env (gearBorderPath p.GearLevel) with
    | error e => simp [errOf, Option.orElse]
    | ok bi =>
    cases loadImage env levelBadgePath with
    | error e => simp [errOf, Option.orElse]
    | ok li =>
    by_cases hz : 0 < p.Zetas
    · simp only [if_pos hz]
      cases loadImage env zetaBadgePath with
      | error e => simp [errOf, Option.orElse]
      | ok zi =>
      by_cases hom : 0 < p.Omicrons
      · simp only [if_pos hom]
        cases loadImage env omicronBadgePath with
        | error e => simp [errOf, Option.orElse]
        | ok oi => simp [errOf, Option.orElse]
      · simp only [if_neg hom]
        simp [errOf, Option.orElse]
    · simp only [if_neg hz]
      by_cases hom : 0 < p.Omicrons
      · simp only [if_pos hom]
        cases loadImage env omicronBadgePath with
        | error e => simp [errOf, Option.orElse]
        | ok oi => simp [errOf, Option.orElse]
      · simp only [if_neg hom]
        simp [errOf, Option.orElse]
  · simp only [if_neg hg]
    cases loadImage env (relicBorderPath c) with
    | error e => simp [errOf, Option.orElse]
    | ok bi =>
    cases loadImage env levelBadgePath with
    | error e => simp [errOf, Option.orElse]
    | ok li =>
    by_cases hz : 0 < p.Zetas
    · simp only [if_pos hz]
      cases loadImage env zetaBadgePath with
      | error e => simp [errOf, Option.orElse]
      | ok zi =>
      by_cases hom : 0 < p.Omicrons
      · simp only [if_pos hom]
        cases loadImage env omicronBadgePath with
        | error e => simp [errOf, Option.orElse]
        | ok oi => simp [errOf, Option.orElse]
      · simp only [if_neg hom]
        simp [errOf, Option.orElse]
    · simp only [if_neg hz]
      by_cases hom : 0 < p.Omicrons
      · simp only [if_pos hom]
        cases loadImage env omicronBadgePath with
        | error e => simp [errOf, Option.orElse]
        | ok oi => simp [errOf, Option.orElse]
      · simp only [if_neg hom]
        simp [errOf, Option.orElse]

/-- Claim C6: the builder is fail-fast and atomic.  It returns an error
exactly when some required load fails, and that error is the first one
in source order (firstLoadError); it returns an image exactly when every
load succeeds (Except carries either an error or an image, never a
partial image, matching the Go (nil, err) returns); and when it fails
the handler tail answers 500 with the underlying message appended to
"Failed to create portrait: ". -/
theorem C6_fail_fast (env : Env) (p : CharacterPortrait) (c : Character) :
    (∀ e, buildPortrait env p c = .error e ↔ firstLoadError env p c = some e) ∧
    ((∃ r, buildPortrait env p c = .ok r) ↔ firstLoadError env p c = none) ∧
    (∀ e, buildPortrait env p c = .error e →
      handleBuild env p c = .internalError (buildFailPre ++ e)) := by
  refine ⟨?_, ?_, ?_⟩
  · intro e
    constructor
    · intro h
      rw [← buildPortrait_err_eq, h]
      rfl
    · intro h
      cases hb : buildPortrait env p c with
      | error e2 =>
        rw [← buildPortrait_err_eq, hb] at h
        simp [errOf] at h
        rw [h]
      | ok st =>
        rw [← buildPortrait_err_eq, hb] at h
        simp [errOf] at h
  · constructor
    · rintro ⟨r, hr⟩
      rw [← buildPortrait_err_eq, hr]
      rfl
    · intro h
      cases hb : buildPortrait env p c with
      | error e =>
        rw [← buildPortrait_err_eq, hb] at h
        simp [errOf] at h
      | ok st => exact ⟨st, rfl⟩
  · intro e h
    unfold handleBuild
    rw [h]

/- ===== claim C8 ===== -/

/-- Pixels outside the destination rectangle are untouched by draw.Draw. -/
theorem drawDraw_px_outside {dst : Img} {r : Rect} {src : Img} {sp : Point}
    {p : Point} (h : ¬memRect r p) : (drawDraw dst r src sp).px p = dst.px p := by
  unfold drawDraw
  simp [h]

/-- Pixels outside the text box are untouched by drawText, for a
glyph-local face. -/
theorem drawText_px_outside {img : Img} {face : Face} {x y : Int} {t : String}
    {p : Point} (hloc : glyphLocal face)
    (h : ¬memRect (textBox face t x y) p) :
    (drawText img face x y t).px p = img.px p := by
  unfold drawText
  by_cases hb : memRect img.bounds p
  · simp only [if_pos hb]
    cases hg : face.glyph t ⟨p.x - x, p.y - y⟩ with
    | none => rfl
    | some f =>
      exfalso
      apply h
      have hq := hloc t ⟨p.x - x, p.y - y⟩ (by rw [hg]; simp)
      simp only [memRect, textBox] at *
      omega
  · simp only [if_neg hb]

/-- Containment between rectangles follows from the corner inequalities. -/
theorem rectSubset_of_le {a b : Rect} (h1 : b.minP.x ≤ a.minP.x)
    (h2 : b.minP.y ≤ a.minP.y) (h3 : a.maxP.x ≤ b.maxP.x)
    (h4 : a.maxP.y ≤ b.maxP.y) : rectSubset a b := by
  intro p hp
  unfold memRect at *
  omega

/-- The 60x60 zeta badge region anchored at (18, 100). -/
def zetaRegion : Rect := ⟨zetaBadgePosition, zetaBadgePosition.add zetaBadgeSize⟩

/-- The 60x60 omicron badge region anchored at (121, 100). -/
def omicronRegion : Rect := ⟨omicronBadgePosition, omicronBadgePosition.add omicronBadgeSize⟩

/-- Ops that belong to the zeta/omicron badge layers (badge image draws
and count text draws). -/
def isBadgeOp (op : Op) : Bool :=
  match op with
  | .zetaBadge _ _ => true
  | .zetaCount _ _ => true
  | .omicronBadge _ _ => true
  | .omicronCount _ _ => true
  | _ => false

/-- Claim C8: two builds of otherwise identical validated requests, one
with zetas = 0 and omicrons = 0 and the other with zetas > 0, differ
only inside the badge regions.  The zero-request build performs no badge
image draw and no count text draw at all, and every pixel outside the
two 60x60 badge regions is identical.  The geometric side conditions say
what the assets guarantee in practice: the zeta badge image drawn at
(18, 100) stays inside the zeta region, and the small face is glyph-local
with the zeta count text box inside the zeta region. -/
theorem C8_zero_badges_pixel_diff {env : Env} {c : Character}
    {p1 p2 : CharacterPortrait} {z : Int}
    {img1 img2 : Img} {ops1 ops2 : List Op}
    (hp2 : p2 = { p1 with Zetas := z }) (hz1 : p1.Zetas = 0)
    (ho1 : p1.Omicrons = 0) (hz : 0 < z)
    (h1 : buildPortrait env p1 c = .ok (img1, ops1))
    (h2 : buildPortrait env p2 c = .ok (img2, ops2))
    (hbadge : ∀ i, loadImage env zetaBadgePath = .ok i →
      rectSubset (i.bounds.add zetaBadgePosition) zetaRegion)
    (hface : ∀ f, loadFont env fontPath fontSizeSmall = .ok f →
      glyphLocal f ∧ rectSubset (textBox f (toString z)
        (zetaTextPos f z).x (zetaTextPos f z).y) zetaRegion) :
    ops1.all (fun op => !isBadgeOp op) = true ∧
    ∀ p, ¬memRect zetaRegion p → ¬memRect omicronRegion p →
      img2.px p = img1.px p := by
  subst hp2
  obtain ⟨fS, fL, st, st1, h18, h24, hb, hzs, hos⟩ := buildPortrait_stages h1
  obtain ⟨fS2, fL2, st2, st12, h18b, h24b, hb2, hzs2, hos2⟩ := buildPortrait_stages h2
  injection h18.symm.trans h18b with hf
  subst hf
  injection h24.symm.trans h24b with hf2
  subst hf2
  have hbeq : buildBase env { p1 with Zetas := z } c fL = buildBase env p1 c fL := rfl
  rw [hbeq] at hb2
  injection hb.symm.trans hb2 with hst
  subst hst
  rcases addZeta_shape hzs with ⟨_, he⟩ | ⟨hzpos, _⟩
  · rcases addOmicron_shape hos with ⟨_, heo⟩ | ⟨hopos, _⟩
    · rcases addZeta_shape hzs2 with ⟨hneg, _⟩ | ⟨_, zi, hzi, hst1, hst2o⟩
      · exact absurd hz hneg
      · rcases addOmicron_shape hos2 with ⟨_, heo2⟩ | ⟨hopos2, _⟩
        · have hops1 : ops1 = st.2 := congrArg Prod.snd (heo.trans he)
          have himg1 : img1 = st.1 := congrArg Prod.fst (heo.trans he)
          have himg2 : img2 = drawText (drawDraw st.1 (zi.bounds.add zetaBadgePosition) zi ⟨0, 0⟩)
              fS (zetaTextPos fS z).x (zetaTextPos fS z).y (toString z) := by
            have hfst : img2 = st12.1 := congrArg Prod.fst heo2
            rw [hfst, hst1]
          constructor
          · obtain ⟨ci, li, hci, hli, hcase⟩ := buildBase_shape hb
            rcases hcase with ⟨_, bi, _, _, hst2⟩ | ⟨_, bi, _, _, hst2⟩ <;>
              rw [hops1, hst2] <;> rfl
          · intro p hpz hpo
            obtain ⟨hgl, hsub⟩ := hface fS h18
            rw [himg2, himg1]
            rw [drawText_px_outside hgl (fun hm => hpz (hsub p hm))]
            rw [drawDraw_px_outside (fun hm => hpz (hbadge zi hzi p hm))]
        · have hcon : (0 : Int) < p1.Omicrons := hopos2
          omega
    · omega
  · omega

/- ===== concrete sample environment for the witnesses ===== -/

/-- A concrete face: every string measures 12, ascent 17, descent 5, and
rendering touches no pixel (a legal glyph-local face). -/
def sampleFace : Face :=
  { measure := fun _ => 12
    ascentCeil := 17
    descent := 5
    glyph := fun _ _ => none }

/-- An opaque white color. -/
def flatPx : Rgba := ⟨65535, 65535, 65535, 65535⟩

/-- A w x h image of flat pixels with bounds at the origin. -/
def flatImg (w h : Int) : Img :=
  { bounds := ⟨⟨0, 0⟩, ⟨w, h⟩⟩, px := fun _ => flatPx }

def fontMissingMsg : String := "font missing"

def openErrPre : String := "open "

/-- A concrete environment holding every asset the witnesses need. -/
def sampleEnv : Env :=
  { fonts := fun path size =>
      if path = fontPath ∧ (size = fontSizeSmall ∨ size = fontSizeLarge) then .ok sampleFace
      else .error fontMissingMsg
    assets := fun path =>
      if path = characterPath darthVader then .ok (flatImg 160 160)
      else if path = gearBorderPath 5 then .ok (flatImg 168 168)
      else if path = relicBorderPath darthVader then .ok (flatImg 200 200)
      else if path = levelBadgePath then .ok (flatImg 50 44)
      else if path = zetaBadgePath then .ok (flatImg 60 60)
      else if path = omicronBadgePath then .ok (flatImg 60 60)
      else .error (openErrPre ++ path) }

/-- An environment where every load fails. -/
def badEnv : Env :=
  { fonts := fun _ _ => .error fontMissingMsg
    assets := fun path => .error (openErrPre ++ path) }

def wGear5 : String := "5"

def wGear13 : String := "13"

def wGear14 : String := "14"

def wAbc : String := "abc"

def wOne : String := "1"

def wThree : String := "3"

def qC1bad : QueryParams :=
  { char := some darthVaderID, gear_level := some wGear14
    relic_level := none, zetas := none, omicrons := none }

def qC2bad : QueryParams :=
  { char := some darthVaderID, gear_level := some wGear5
    relic_level := some wThree, zetas := none, omicrons := none }

def qC3mixed : QueryParams :=
  { char := some darthVaderID, gear_level := some wGear13
    relic_level := some wGear5, zetas := some wAbc, omicrons := some wOne }

def qC10lenient : QueryParams :=
  { char := some darthVaderID, gear_level := some wGear5
    relic_level := some wAbc, zetas := none, omicrons := none }

def pGear5 : CharacterPortrait := ⟨darthVaderID, 5, 0, 0, 0⟩

def pGear5Zeta1 : CharacterPortrait := ⟨darthVaderID, 5, 0, 1, 0⟩

def pRelic : CharacterPortrait := ⟨darthVaderID, 13, 5, 0, 0⟩

def pFull : CharacterPortrait := ⟨darthVaderID, 13, 5, 1, 1⟩

/- ===== witnesses ===== -/

/-- Witness for C1 at the concrete out-of-range gear_level value 14. -/
theorem C1_witness :
    atoi wGear14 = some 14 ∧ ((14 : Int) < 1 ∨ 13 < (14 : Int)) ∧
    createPortraitHandler sampleEnv getMethod qC1bad = .badRequest gearLevelMsg :=
  ⟨by decide, by decide,
   (C1_gear_level_validation qC1bad darthVaderID darthVader rfl rfl).2.2.1
     wGear14 14 rfl (by decide) (by decide) sampleEnv⟩

/-- Witness for C2: gear_level 5 with relic_level 3 is rejected. -/
theorem C2_witness :
    atoi wGear5 = some 5 ∧ atoi wThree = some 3 ∧
    createPortraitHandler sampleEnv getMethod qC2bad = .badRequest relicProvidedMsg :=
  ⟨by decide, by decide,
   (C2_relic_level_validation qC2bad darthVaderID darthVader wGear5 rfl rfl rfl).1
     5 wThree 3 (by decide) (by decide) (by decide) rfl (by decide) (by decide) sampleEnv⟩

/-- Witness for C3: non-numeric zetas falls through as 0 and omicrons at
its maximum 1 passes, on a gear 13 / relic 5 request. -/
theorem C3_witness :
    atoi wAbc = none ∧ atoi wOne = some 1 ∧
    createPortraitHandler sampleEnv getMethod qC3mixed =
      checkOmicrons sampleEnv qC3mixed darthVaderID 13 5 0 darthVader ∧
    checkOmicrons sampleEnv qC3mixed darthVaderID 13 5 0 darthVader =
      handleBuild sampleEnv ⟨darthVaderID, 13, 5, 0, 1⟩ darthVader := by
  have h := C3_zeta_omicron_validation qC3mixed darthVaderID darthVader wGear13 13 5
    rfl rfl rfl (by decide) (by decide) (by decide)
    (Or.inr ⟨rfl, wGear5, rfl, by decide, by decide, by decide⟩)
    (by decide) (by decide)
  exact ⟨by decide, by decide,
    h.1 (Or.inr (Or.inr ⟨wAbc, rfl, by decide⟩)) sampleEnv,
    h.2.2.2.2.2 wOne 1 0 rfl (by decide) (Or.inr (by decide)) sampleEnv⟩

/-- Witness for C10: relic_level "abc" with gear_level 5 reaches the
zetas stage with relic level 0 and the request still answers 200. -/
theorem C10_witness :
    atoi wAbc = none ∧
    createPortraitHandler sampleEnv getMethod qC10lenient =
      checkZetas sampleEnv qC10lenient darthVaderID 5 0 darthVader ∧
    ∃ img ops, createPortraitHandler sampleEnv getMethod qC10lenient = .okPNG img ops := by
  have h := C10_relic_parse_error_lenient qC10lenient darthVaderID darthVader wGear5 wAbc 5
    rfl rfl rfl (by decide) (by decide) (by decide) rfl (by decide) sampleEnv
  refine ⟨by decide, h, ?_⟩
  rw [h]
  exact ⟨_, _, rfl⟩

/-- Witness for C4 at a concrete gear-5 build. -/
theorem C4_witness :
    ∃ img ops, buildPortrait sampleEnv pGear5 darthVader = .ok (img, ops) ∧
      ∃ ci bi rest,
        loadImage sampleEnv (characterPath darthVader) = .ok ci ∧
        loadImage sampleEnv (gearBorderPath pGear5.GearLevel) = .ok bi ∧
        ops = Op.charDraw (ci.bounds.add (placeOffset ci.bounds.size)) ci.bounds.minP ::
          Op.gearBorder (bi.bounds.add (centerOffset canvasRect.size bi.bounds.size))
            bi.bounds.minP :: rest := by
  refine ⟨_, _, rfl, ?_⟩
  exact (@C4_border_selection sampleEnv pGear5 darthVader _ _ rfl).1 (by decide)

/-- Witness for C6: with every load failing, the build fails with the
first error (the small font) and the handler tail answers 500. -/
theorem C6_witness :
    buildPortrait badEnv pFull darthVader = .error fontMissingMsg ∧
    firstLoadError badEnv pFull darthVader = some fontMissingMsg ∧
    handleBuild badEnv pFull darthVader = .internalError (buildFailPre ++ fontMissingMsg) := by
  have h : buildPortrait badEnv pFull darthVader = .error fontMissingMsg := rfl
  exact ⟨h, ((C6_fail_fast badEnv pFull darthVader).1 fontMissingMsg).mp h,
    (C6_fail_fast badEnv pFull darthVader).2.2 fontMissingMsg h⟩

/-- Witness for C7 at a concrete relic-border build. -/
theorem C7_witness :
    ∃ img ops, buildPortrait sampleEnv pRelic darthVader = .ok (img, ops) ∧
      img.bounds = canvasRect := by
  refine ⟨_, _, rfl, ?_⟩
  exact (@C7_canvas_bounds sampleEnv pRelic darthVader _ _ rfl).1

/-- Witness for C8 at concrete gear-5 builds with zetas 0 and 1. -/
theorem C8_witness :
    ∃ i1 o1 i2 o2, buildPortrait sampleEnv pGear5 darthVader = .ok (i1, o1) ∧
      buildPortrait sampleEnv pGear5Zeta1 darthVader = .ok (i2, o2) ∧
      o1.all (fun op => !isBadgeOp op) = true ∧
      (∀ p, ¬memRect zetaRegion p → ¬memRect omicronRegion p → i2.px p = i1.px p) := by
  have hbadge : ∀ i, loadImage sampleEnv zetaBadgePath = .ok i →
      rectSubset (i.bounds.add zetaBadgePosition) zetaRegion := by
    intro i hi
    have hi2 : Except.ok (flatImg 60 60) = Except.ok i := hi
    injection hi2 with hh
    subst hh
    exact rectSubset_of_le (by decide) (by decide) (by decide) (by decide)
  have hface : ∀ f, loadFont sampleEnv fontPath fontSizeSmall = .ok f →
      glyphLocal f ∧ rectSubset (textBox f (toString (1 : Int))
        (zetaTextPos f 1).x (zetaTextPos f 1).y) zetaRegion := by
    intro f hf
    have hf2 : Except.ok sampleFace = Except.ok f := hf
    injection hf2 with hh
    subst hh
    constructor
    · intro s q hne
      exact absurd rfl hne
    · exact rectSubset_of_le (by decide) (by decide) (by decide) (by decide)
  obtain ⟨i1, o1, e1⟩ : ∃ i o, buildPortrait sampleEnv pGear5 darthVader = .ok (i, o) :=
    ⟨_, _, rfl⟩
  obtain ⟨i2, o2, e2⟩ : ∃ i o, buildPortrait sampleEnv pGear5Zeta1 darthVader = .ok (i, o) :=
    ⟨_, _, rfl⟩
  have h := C8_zero_badges_pixel_diff rfl rfl rfl (by decide) e1 e2 hbadge hface
  exact ⟨i1, o1, i2, o2, e1, e2, h.1, h.2⟩

/-- Witness for C9 at a concrete build with both badges present. -/
theorem C9_witness :
    ∃ img ops, buildPortrait sampleEnv pFull darthVader = .ok (img, ops) ∧
      ops.filterMap levelCountText = [levelText] := by
  refine ⟨_, _, rfl, ?_⟩
  exact (@C9_level_text_constant sampleEnv pFull darthVader _ _ rfl).1
